import Mathlib

/-!
Verification development for the identity-provenance ledger and its
dual-write registration protocol (authService / pathchain projection).

The JavaScript source is shallowly embedded: relational rows become Lean
structures, the database becomes an explicit record of row lists, the
external PathChain library's per-call results become oracle records (the
library can return a value, return an error string, or throw), and the
relational transaction is modelled by staging writes and committing or
rolling back atomically, with injected write-failure flags.
-/

/-! ## String helpers modelling JavaScript string semantics -/

/-- JS whitespace characters relevant to String.prototype.trim. -/
def isWsChar (c : Char) : Bool :=
  c == ' ' || c == '\t' || c == '\n' || c == '\r'

/-- JS String.prototype.trim on a character list. -/
def trimChars (l : List Char) : List Char :=
  ((l.dropWhile isWsChar).reverse.dropWhile isWsChar).reverse

/-- JS String.prototype.trim. -/
def strTrim (s : String) : String := ⟨trimChars s.data⟩

/-- JS string length (code units; our model uses characters). -/
def strLen (s : String) : Nat := s.data.length

/-- Does the first list occur as a leading segment of the second? -/
def listStartsWith : List Char → List Char → Bool
  | [], _ => true
  | _ :: _, [] => false
  | a :: as, b :: bs => a == b && listStartsWith as bs

/-- Does `needle` occur contiguously inside `hay`? -/
def listInfixIn (needle hay : List Char) : Bool :=
  match hay with
  | [] => listStartsWith needle []
  | _ :: t => listStartsWith needle hay || listInfixIn needle t

/-- JS String.prototype.includes. -/
def strIncludes (hay needle : String) : Bool :=
  listInfixIn needle.data hay.data

/-- JS String.prototype.startsWith. -/
def strStartsWith (s pre : String) : Bool :=
  listStartsWith pre.data s.data

/-- Drop the first `n` characters of a string (JS substring(n)). -/
def strDrop (s : String) (n : Nat) : String := ⟨s.data.drop n⟩

/-- Hexadecimal digit test (case-insensitive, as in the /i regex). -/
def isHexDigit (c : Char) : Bool :=
  ('a' ≤ c && c ≤ 'f') || ('A' ≤ c && c ≤ 'F') || ('0' ≤ c && c ≤ '9')

/-!
§ Pure helpers from src/utils/pathchain.js
-/

/-- `extractHash` from src/utils/pathchain.js: last `/`-separated component. -/
def extractHash (path : String) : String :=
  if path == "" then "" else
    match (path.splitOn "/").getLast? with
    | some h => h
    | none => ""

/-- `normalizeSecretHash` from src/utils/pathchain.js. -/
def normalizeSecretHash (secretInput : String) : String :=
  if secretInput == "" then "" else
    let trimmed := strTrim secretInput
    if strStartsWith trimmed "secrets/" then strDrop trimmed 8 else trimmed

/-- The 64-hex-character shape test (`/^[a-f0-9]{64}$/i.test(s.trim())`)
from the register function in src/services/authService.js. -/
def isValidHash64 (s : String) : Bool :=
  let t := strTrim s
  strLen t == 64 && t.data.all isHexDigit

/-- A string that is exactly 64 hexadecimal characters (no surrounding
whitespace): the shape the spec calls a 256-bit-hash-shaped string. -/
def exactly64Hex (s : String) : Bool :=
  strLen s == 64 && s.data.all isHexDigit

/-!
§ Relational projection rows (src/unnamed models: Entity, Secret, Login)
-/

structure EntityRow where
  id : Nat
  path : String
  ancestor_id : Option Nat
deriving Repr, DecidableEq

structure SecretRow where
  id : Nat
  path : String
  owner_id : Nat
  owner_type_id : Nat
  used_at : Option Nat
deriving Repr, DecidableEq

structure LoginRow where
  id : String
  entity_id : Nat
  password : String
  secret : Option String
deriving Repr, DecidableEq

/-- The Projection Store: entity, secret and login tables, plus
auto-increment counters for primary keys. -/
structure DB where
  entities : List EntityRow
  secrets : List SecretRow
  logins : List LoginRow
  nextEntityId : Nat
  nextSecretId : Nat
deriving Repr, DecidableEq

/-- `OwnerType.ENTITY` constant from the models. -/
def OwnerType.ENTITY : Nat := 1

/-- Rows with a null ancestor (candidate roots). -/
def DB.rootRows (db : DB) : List EntityRow :=
  db.entities.filter (fun r => r.ancestor_id = none)

/-- Number of root rows (rows with null ancestor). -/
def DB.rootCount (db : DB) : Nat := db.rootRows.length

/-- `Entity.findPioneer`: findOne where ancestor_id is null, order id ASC. -/
def Entity.findPioneer (db : DB) : Option EntityRow :=
  db.rootRows.foldl
    (fun acc r =>
      match acc with
      | none => some r
      | some b => if r.id < b.id then some r else some b)
    none

/-- `Entity.findByPk`. -/
def Entity.findByPk (db : DB) (i : Nat) : Option EntityRow :=
  db.entities.find? (fun r => r.id == i)

/-- `Entity.findOne({ where: { path } })`. -/
def Entity.findByPath (db : DB) (p : String) : Option EntityRow :=
  db.entities.find? (fun r => r.path == p)

/-- `Login.usernameExists`. -/
def Login.usernameExists (db : DB) (u : String) : Bool :=
  db.logins.any (fun r => r.id == u)

/-- `Secret.findByPath` / `Secret.findOne({ where: { path } })`. -/
def Secret.findByPath (db : DB) (p : String) : Option SecretRow :=
  db.secrets.find? (fun r => r.path == p)

/-- `secret.markAsUsed()`: set used_at on the row with the given id. -/
def DB.markSecretUsed (db : DB) (sid : Nat) (now : Nat) : DB :=
  { db with secrets :=
      db.secrets.map (fun r => if r.id == sid then { r with used_at := some now } else r) }

/-!
§ PathChain call results

The PathChain library is an external collaborator loaded with `require`.
Each call the service makes can return a decoded object, return an error
string (the library reports errors in-band), return null, or throw.
-/

/-- Outcome of a JavaScript call: returned a value, or threw. -/
inductive JsRes (α : Type) where
  | ok : α → JsRes α
  | thrown : String → JsRes α
deriving Repr, DecidableEq

/-- `isSecretUsed` returns a boolean, or an error string. -/
inductive BoolOrStr where
  | bool : Bool → BoolOrStr
  | str : String → BoolOrStr
deriving Repr, DecidableEq

/-- Decoded PathChain secret record (register, author, user, used, tag). -/
structure SecretObj where
  register : String
  author : String
  user : String
  used : Bool
  tag : String
deriving Repr, DecidableEq

/-- Decoded PathChain entity record (register, ancestor, tag). -/
structure EntityObj where
  register : String
  ancestor : String
  tag : String
deriving Repr, DecidableEq

/-- A lookup result: decoded object, error string, or null. -/
inductive ObjOrStr (α : Type) where
  | obj : α → ObjOrStr α
  | str : String → ObjOrStr α
  | nullv : ObjOrStr α
deriving Repr, DecidableEq

/-!
§ Spec-modelled Ledger

The PathChain library itself ships as an npm dependency; its behaviour is
documented in src/doc/PATHCHAIN_SCHEMA.md. The model below follows that
document and §4.2 of the spec.
-/

/-- Modelled from the spec: the content-addressed Ledger state — secret
records and entity records keyed by their hash (the pathchain library's
file store, which is not part of this repository's sources). -/
structure Ledger where
  secrets : List (String × SecretObj)
  entities : List (String × EntityObj)
deriving Repr, DecidableEq

/-- Modelled from the spec: point lookup of a secret record by hash. -/
def Ledger.lookupSecret (l : Ledger) (h : String) : Option SecretObj :=
  (l.secrets.find? (fun p => p.1 == h)).map (fun p => p.2)

/-- Modelled from the spec: point lookup of an entity record by hash. -/
def Ledger.lookupEntity (l : Ledger) (h : String) : Option EntityObj :=
  (l.entities.find? (fun p => p.1 == h)).map (fun p => p.2)

/-- Modelled from the spec: `isSecretUsed` returns the consumed flag, or a
distinguishable not-found error string when the address is unknown. -/
def Ledger.isSecretUsed (l : Ledger) (h : String) : BoolOrStr :=
  match l.lookupSecret h with
  | some s => .bool s.used
  | none => .str ("Secret " ++ h ++ " not found")

/-- Modelled from the spec: `getSecretObj` returns the decoded record or an
error string. -/
def Ledger.getSecretObj (l : Ledger) (h : String) : ObjOrStr SecretObj :=
  match l.lookupSecret h with
  | some s => .obj s
  | none => .str ("Secret " ++ h ++ " not found")

/-- Modelled from the spec: generic `getObj` on a `secrets/{hash}` address. -/
def Ledger.getObjSecret (l : Ledger) (address : String) : ObjOrStr SecretObj :=
  Ledger.getSecretObj l (extractHash address)

/-- Modelled from the spec: `makeEntity` (mint entity from secret). Reads
the secret; errors if missing or already consumed; otherwise creates the
entity with ancestor = the secret's author and flips the secret's used flag,
returning the new entity hash. The content hash of the new record is
supplied abstractly as `newHash`. -/
def Ledger.makeEntity (l : Ledger) (h : String) (newHash momentTag : String) :
    String × Ledger :=
  match l.lookupSecret h with
  | none => ("error: secret " ++ h ++ " not found", l)
  | some s =>
    if s.used then ("error: secret has already been used", l)
    else
      let tag := "entities/" ++ newHash
      let ent : EntityObj := { register := momentTag, ancestor := s.author, tag := tag }
      ( newHash,
        { l with
            entities := (newHash, ent) :: l.entities,
            secrets := l.secrets.map
              (fun p => if p.1 == h then (p.1, { s with used := true, user := tag }) else p) } )

/-!
§ Collaborator call oracles

`register` consults the PathChain library at fixed call sites; since the
library is an external module, the result of each call site is an input of
the embedding. Fields appear in source call order.
-/

/-- Per-call-site results of the PathChain library during `register`. -/
structure RegOracle where
  available : Bool
  isUsed1 : JsRes BoolOrStr
  getSecretA : JsRes (ObjOrStr SecretObj)
  getSecretB : JsRes (ObjOrStr SecretObj)
  getSecretC : JsRes (ObjOrStr SecretObj)
  createEntity : JsRes String
  isUsedRecheck : JsRes BoolOrStr
  getEntityA : JsRes (ObjOrStr EntityObj)
  getEntityB : JsRes (ObjOrStr EntityObj)
  getEntityC : JsRes (ObjOrStr EntityObj)
  useSecretThrows : Option String
deriving Repr, DecidableEq

/-- Per-call-site results of PathChain during `initializeSystem`, plus the
filesystem scan of the pioneer's secrets directory. -/
structure InitOracle where
  createPioneer : JsRes String
  getPioneer : JsRes (ObjOrStr EntityObj)
  fsSecretHash : Option String
deriving Repr, DecidableEq

/-- Injected failures for the writes inside a Projection Store
transaction. -/
structure DbFailure where
  entityCreateFails : Bool
  secretWriteFails : Bool
  loginCreateFails : Bool
deriving Repr, DecidableEq

/-- The all-success failure injection. -/
def DbFailure.noFail : DbFailure :=
  { entityCreateFails := false, secretWriteFails := false, loginCreateFails := false }

/-- Resolution of the three-attempt secret/entity lookup in `register`
(each of the second and third attempts sits in its own try/catch; a throw
of the first attempt skips the rest and leaves null). -/
def resolveObj {α : Type} (a b c : JsRes (ObjOrStr α)) : ObjOrStr α :=
  match a with
  | .thrown _ => .nullv
  | .ok av =>
    let afterB : ObjOrStr α :=
      match av with
      | .str _ =>
        match b with
        | .ok bv => bv
        | .thrown _ => av
      | _ => av
    match afterB with
    | .obj o => .obj o
    | _ =>
      match c with
      | .ok cv => cv
      | .thrown _ => afterB

/-- The secret object `register` ends up with after its three attempts. -/
def resolvedSecret (pc : RegOracle) : ObjOrStr SecretObj :=
  resolveObj pc.getSecretA pc.getSecretB pc.getSecretC

/-- The entity object `register` ends up with after its three attempts. -/
def resolvedEntity (pc : RegOracle) : ObjOrStr EntityObj :=
  resolveObj pc.getEntityA pc.getEntityB pc.getEntityC

/-- The `isUsed` value after the catch handler (`isUsed = false` when the
check throws — the code assumes not-used on failure). -/
def effectiveIsUsed (pc : RegOracle) : BoolOrStr :=
  match pc.isUsed1 with
  | .thrown _ => .bool false
  | .ok v => v

/-!
§ Credential collaborators (opaque in the spec)

SHA-256 hashing and signed-token issuance are outbound collaborators; the
claims never depend on their values, so they are modelled as injective
string taggings.
-/

/-- `hashPassword` (SHA-256 modelled abstractly as an injective tag). -/
def hashPassword (password : String) : String := "sha256:" ++ password

/-- `generateToken` (signed JWT modelled abstractly from its payload). -/
def generateToken (entityId : Nat) (username path : String) : String :=
  "jwt:" ++ toString entityId ++ ":" ++ username ++ ":" ++ path

/-!
§ Results and traces
-/

/-- Error code constants from src/services/authService.js. -/
def ErrorCodes.INVALID_SECRET : Nat := 40100

def ErrorCodes.USED_SECRET : Nat := 40101

def ErrorCodes.INVALID_REQUEST : Nat := 40102

def ErrorCodes.ANCESTOR_NOT_FOUND : Nat := 40105

def ErrorCodes.USERNAME_EXISTS : Nat := 40106

def ErrorCodes.ENTITY_RETRIEVAL_FAILED : Nat := 50003

def ErrorCodes.DATABASE_ERROR : Nat := 50005

/-- Outcome of `register`: success payload (token, entity id, entity path,
username) or a structured error (code, message). -/
inductive RegOutcome where
  | success : String → Nat → String → String → RegOutcome
  | failure : Nat → String → RegOutcome
deriving Repr, DecidableEq

/-- Observable side-effect events of a `register` run. -/
inductive Ev where
  | pcCreateEntity
  | txCommit
  | txRollback
  | pcUseSecret
deriving Repr, DecidableEq

/-- Result of a `register` run: outcome, final Projection Store state, and
the event trace. -/
structure RegResult where
  res : RegOutcome
  db : DB
  trace : List Ev
deriving Repr, DecidableEq

/-- Is a register outcome a success payload? -/
def RegOutcome.isSuccessShape : RegOutcome → Bool
  | .success _ _ _ _ => true
  | .failure _ _ => false

/-- The error code of a register result, if it failed. -/
def RegResult.code (r : RegResult) : Option Nat :=
  match r.res with
  | .failure c _ => some c
  | .success _ _ _ _ => none

/-- Every Ledger confirmation (`useSecret`) event is preceded by a
transaction commit. -/
def traceOrderedAux : List Ev → Bool → Bool
  | [], _ => true
  | e :: t, seen =>
    match e with
    | .txCommit => traceOrderedAux t true
    | .pcUseSecret => seen && traceOrderedAux t seen
    | _ => traceOrderedAux t seen

/-- A trace is ordered when `pcUseSecret` only occurs after `txCommit`. -/
def traceOrdered (t : List Ev) : Bool := traceOrderedAux t false

/-!
§ initializeSystem (src/services/authService.js lines 35-187)
-/

/-- Return shape of `initializeSystem`. -/
structure InitResult where
  pioneer : EntityRow
  secret : Option SecretRow
  isNew : Bool
  secretHash : Option String
deriving Repr, DecidableEq

/-- `initializeSystem`: if a pioneer row exists, return it unchanged;
otherwise mint the pioneer in PathChain, insert its EntityRow (null
ancestor), locate the auto-issued secret hash on the filesystem (falling
back to the pioneer hash), and record its SecretRow if absent. Thrown
errors (`.error`) occur only before any database write. -/
def initializeSystem (db : DB) (o : InitOracle) : Except String (InitResult × DB) :=
  match Entity.findPioneer db with
  | some p =>
    .ok ({ pioneer := p, secret := none, isNew := false, secretHash := o.fsSecretHash }, db)
  | none =>
    match o.createPioneer with
    | .thrown e => .error e
    | .ok pioneerHash =>
      if pioneerHash == "" || strIncludes pioneerHash "error" then
        .error ("Failed to create pioneer in PathChain: " ++ pioneerHash)
      else
        match o.getPioneer with
        | .thrown e => .error e
        | .ok (.str s) => .error ("Failed to retrieve pioneer from PathChain: " ++ s)
        | .ok .nullv => .error "Failed to retrieve pioneer from PathChain: null"
        | .ok (.obj pioneerObj) =>
          let pioneer : EntityRow :=
            { id := db.nextEntityId, path := pioneerObj.tag, ancestor_id := none }
          let db1 : DB :=
            { db with
                entities := db.entities ++ [pioneer],
                nextEntityId := db.nextEntityId + 1 }
          let actualSecretHash := o.fsSecretHash.getD pioneerHash
          let secretPath := "secrets/" ++ actualSecretHash
          match Secret.findByPath db1 secretPath with
          | some s =>
            .ok ({ pioneer := pioneer, secret := some s, isNew := true,
                   secretHash := some actualSecretHash }, db1)
          | none =>
            let srow : SecretRow :=
              { id := db1.nextSecretId, path := secretPath, owner_id := pioneer.id,
                owner_type_id := OwnerType.ENTITY, used_at := none }
            let db2 : DB :=
              { db1 with
                  secrets := db1.secrets ++ [srow],
                  nextSecretId := db1.nextSecretId + 1 }
            .ok ({ pioneer := pioneer, secret := some srow, isNew := true,
                   secretHash := some actualSecretHash }, db2)

/-!
§ The Projection Store transactions inside register
-/

/-- The transaction of register's PathChain-available branch: insert the
EntityRow, upsert the SecretRow with used_at set, insert the Login row;
any injected failure rolls the whole transaction back. After a commit the
best-effort Ledger confirmation (`useSecret`) is attempted and its failure
swallowed. -/
def runTx (db : DB) (fail : DbFailure) (now : Nat)
    (normalized username password : String) (ancestorId : Nat) (entityTag : String) :
    RegResult :=
  if fail.entityCreateFails then
    { res := .failure ErrorCodes.DATABASE_ERROR "entity insert failed",
      db := db, trace := [Ev.txRollback] }
  else
    let entityRow : EntityRow :=
      { id := db.nextEntityId, path := entityTag, ancestor_id := some ancestorId }
    let dbA : DB :=
      { db with entities := db.entities ++ [entityRow], nextEntityId := db.nextEntityId + 1 }
    if fail.secretWriteFails then
      { res := .failure ErrorCodes.DATABASE_ERROR "secret write failed",
        db := db, trace := [Ev.txRollback] }
    else
      let secretPath := "secrets/" ++ normalized
      let dbB : DB :=
        match Secret.findByPath dbA secretPath with
        | some s =>
          { dbA with secrets :=
              dbA.secrets.map (fun r => if r.id == s.id then { r with used_at := some now } else r) }
        | none =>
          { dbA with
              secrets := dbA.secrets ++
                [{ id := dbA.nextSecretId, path := secretPath, owner_id := ancestorId,
                   owner_type_id := OwnerType.ENTITY, used_at := some now }],
              nextSecretId := dbA.nextSecretId + 1 }
      if fail.loginCreateFails then
        { res := .failure ErrorCodes.DATABASE_ERROR "login insert failed",
          db := db, trace := [Ev.txRollback] }
      else
        let loginRow : LoginRow :=
          { id := username, entity_id := entityRow.id, password := hashPassword password,
            secret := if normalized == "" then none else some normalized }
        let dbC : DB := { dbB with logins := dbB.logins ++ [loginRow] }
        { res := .success (generateToken entityRow.id username entityRow.path)
            entityRow.id entityRow.path username,
          db := dbC, trace := [Ev.txCommit, Ev.pcUseSecret] }

/-- The transaction of register's PathChain-unavailable branch: insert an
EntityRow whose path is `entities/{normalized}`, unconditionally insert a
SecretRow already marked used, insert the Login row; no Ledger
confirmation call is made. -/
def runTxUnavailable (db : DB) (fail : DbFailure) (now : Nat)
    (normalized username password : String) (ancestorId : Nat) : RegResult :=
  if fail.entityCreateFails then
    { res := .failure ErrorCodes.DATABASE_ERROR "entity insert failed",
      db := db, trace := [Ev.txRollback] }
  else
    let entityRow : EntityRow :=
      { id := db.nextEntityId, path := "entities/" ++ normalized,
        ancestor_id := some ancestorId }
    let dbA : DB :=
      { db with entities := db.entities ++ [entityRow], nextEntityId := db.nextEntityId + 1 }
    if fail.secretWriteFails then
      { res := .failure ErrorCodes.DATABASE_ERROR "secret insert failed",
        db := db, trace := [Ev.txRollback] }
    else
      let dbB : DB :=
        { dbA with
            secrets := dbA.secrets ++
              [{ id := dbA.nextSecretId, path := "secrets/" ++ normalized,
                 owner_id := ancestorId, owner_type_id := OwnerType.ENTITY,
                 used_at := some now }],
            nextSecretId := dbA.nextSecretId + 1 }
      if fail.loginCreateFails then
        { res := .failure ErrorCodes.DATABASE_ERROR "login insert failed",
          db := db, trace := [Ev.txRollback] }
      else
        let loginRow : LoginRow :=
          { id := username, entity_id := entityRow.id, password := hashPassword password,
            secret := if normalized == "" then none else some normalized }
        let dbC : DB := { dbB with logins := dbB.logins ++ [loginRow] }
        { res := .success (generateToken entityRow.id username entityRow.path)
            entityRow.id entityRow.path username,
          db := dbC, trace := [Ev.txCommit] }

/-!
§ Interpretation of the mint result string
-/

/-- Does a mint failure text indicate prior use (`used`/`already`)? -/
def kwPriorUse (s : String) : Bool :=
  strIncludes s "used" || strIncludes s "already"

/-- Does a mint failure text indicate a missing/unidentified secret
(`Updater`/`not identified`/`not found`)? -/
def kwNotFound (s : String) : Bool :=
  strIncludes s "Updater" || strIncludes s "not identified" || strIncludes s "not found"

/-- The `isErrorMessage` disjunction over the string returned by
`createEntity`, exactly as in register. -/
def mintIsError (s : String) : Bool :=
  strIncludes s "error" || strIncludes s "used" || strIncludes s "already" ||
  strIncludes s "not found" || strIncludes s "not identified" ||
  strIncludes s "Updater" || !(strLen s == 64) || !(isValidHash64 s)

/-- The string `register` ends up with after the `createEntity` call (a
thrown error is converted to an `error: ...` string by the catch). -/
def mintResult (pc : RegOracle) : String :=
  match pc.createEntity with
  | .ok h => h
  | .thrown m => "error: " ++ m

/-- The error `register` returns for a mint failure that was not resolved
to USED_SECRET: INVALID_SECRET when the text indicates a missing or
unidentified secret, ENTITY_RETRIEVAL_FAILED otherwise. -/
def mintFailureResult (db : DB) (entityHash : String) : RegResult :=
  if kwNotFound entityHash then
    { res := .failure ErrorCodes.INVALID_SECRET
        ("Invalid secret: " ++ entityHash ++
         ". The secret may have already been used or does not exist."),
      db := db, trace := [Ev.pcCreateEntity] }
  else
    { res := .failure ErrorCodes.ENTITY_RETRIEVAL_FAILED
        ("Failed to create entity in PathChain: " ++ entityHash),
      db := db, trace := [Ev.pcCreateEntity] }

/-!
§ register (src/services/authService.js lines 197-622)
-/

/-- The registration coordinator. Inputs: the Projection Store, the
PathChain call results, the PathChain results used by a nested
`initializeSystem` call, the injected transaction-write failures, the
current timestamp, and the request fields. An empty `secretInput` models
the absent-secret (bootstrap) request. -/
def register (db : DB) (pc : RegOracle) (io : InitOracle) (fail : DbFailure)
    (now : Nat) (secretInput username password : String) : RegResult :=
  if username == "" || Nat.blt 255 (strLen username) then
    { res := .failure ErrorCodes.INVALID_REQUEST
        "Username is required and must be max 255 characters",
      db := db, trace := [] }
  else if password == "" then
    { res := .failure ErrorCodes.INVALID_REQUEST "Password is required",
      db := db, trace := [] }
  else if Login.usernameExists db username then
    { res := .failure ErrorCodes.USERNAME_EXISTS "Username already exists",
      db := db, trace := [] }
  else if secretInput == "" then
    match Entity.findPioneer db with
    | some _ =>
      { res := .failure ErrorCodes.INVALID_SECRET "Secret is required for registration",
        db := db, trace := [] }
    | none =>
      match initializeSystem db io with
      | .error e => { res := .failure ErrorCodes.DATABASE_ERROR e, db := db, trace := [] }
      | .ok (ir, db1) =>
        if ir.isNew then
          let db2 :=
            match ir.secret with
            | some s => DB.markSecretUsed db1 s.id now
            | none => db1
          { res := .success (generateToken ir.pioneer.id username ir.pioneer.path)
              ir.pioneer.id ir.pioneer.path username,
            db := db2, trace := [] }
        else
          { res := .failure ErrorCodes.INVALID_SECRET "Secret is required for registration",
            db := db1, trace := [] }
  else
    if normalizeSecretHash secretInput == "" then
      { res := .failure ErrorCodes.INVALID_SECRET "Invalid secret format",
        db := db, trace := [] }
    else if pc.available then
      match effectiveIsUsed pc with
      | .bool true =>
        { res := .failure ErrorCodes.USED_SECRET "Secret has already been used",
          db := db, trace := [] }
      | _ =>
        match resolvedSecret pc with
        | .str m =>
          { res := .failure ErrorCodes.INVALID_SECRET ("Invalid secret: " ++ m),
            db := db, trace := [] }
        | .nullv =>
          { res := .failure ErrorCodes.INVALID_SECRET
              "Invalid secret: Secret not found in PathChain",
            db := db, trace := [] }
        | .obj secretObj =>
          match Entity.findByPath db secretObj.author with
          | none =>
            { res := .failure ErrorCodes.ANCESTOR_NOT_FOUND
                "Ancestor entity not found in database",
              db := db, trace := [] }
          | some ancestorEntity =>
            if mintResult pc == "" then
              { res := .failure ErrorCodes.ENTITY_RETRIEVAL_FAILED
                  "Failed to create entity in PathChain: No result returned",
                db := db, trace := [Ev.pcCreateEntity] }
            else if mintIsError (mintResult pc) then
              if kwPriorUse (mintResult pc) then
                match pc.isUsedRecheck with
                | .thrown m =>
                  { res := .failure ErrorCodes.DATABASE_ERROR m,
                    db := db, trace := [Ev.pcCreateEntity] }
                | .ok (.bool true) =>
                  { res := .failure ErrorCodes.USED_SECRET "Secret has already been used",
                    db := db, trace := [Ev.pcCreateEntity] }
                | .ok (.bool false) => mintFailureResult db (mintResult pc)
                | .ok (.str _) => mintFailureResult db (mintResult pc)
              else mintFailureResult db (mintResult pc)
            else
              match resolvedEntity pc with
              | .obj entityObj =>
                { res := (runTx db fail now (normalizeSecretHash secretInput) username
                    password ancestorEntity.id entityObj.tag).res,
                  db := (runTx db fail now (normalizeSecretHash secretInput) username
                    password ancestorEntity.id entityObj.tag).db,
                  trace := Ev.pcCreateEntity ::
                    (runTx db fail now (normalizeSecretHash secretInput) username
                      password ancestorEntity.id entityObj.tag).trace }
              | .str m =>
                { res := .failure ErrorCodes.ENTITY_RETRIEVAL_FAILED
                    ("Failed to retrieve entity from PathChain: " ++ m ++
                     ". Entity hash: " ++ mintResult pc),
                  db := db, trace := [Ev.pcCreateEntity] }
              | .nullv =>
                { res := .failure ErrorCodes.ENTITY_RETRIEVAL_FAILED
                    ("Failed to retrieve entity from PathChain: Entity not found in PathChain. Entity hash: " ++
                     mintResult pc),
                  db := db, trace := [Ev.pcCreateEntity] }
    else
      match Entity.findPioneer db with
      | some ancestorEntity =>
        runTxUnavailable db fail now (normalizeSecretHash secretInput) username password
          ancestorEntity.id
      | none =>
        match initializeSystem db io with
        | .error e => { res := .failure ErrorCodes.DATABASE_ERROR e, db := db, trace := [] }
        | .ok (ir, db1) =>
          runTxUnavailable db1 fail now (normalizeSecretHash secretInput) username password
            ir.pioneer.id

/-!
§ checkSecret (src/services/authService.js lines 810-940)

checkSecret only consults the PathChain read operations (`isSecretUsed`,
`getSecretObj`, `getObj`); it is interpreted directly against the
spec-modelled Ledger, with the Ledger and Projection Store states threaded
through so the frame property is expressible.
-/

/-- Return shape of `checkSecret`. -/
structure CheckResult where
  valid : Bool
  unused : Bool
  error : Option (Nat × String)
deriving Repr, DecidableEq

/-- The three-attempt secret lookup of `checkSecret`: plain `getSecretObj`,
then the same call with an explicit empty author, then generic `getObj` on
the full `secrets/{hash}` address. -/
def checkSecretResolve (l : Ledger) (secretHash : String) : ObjOrStr SecretObj :=
  match Ledger.getSecretObj l secretHash with
  | .obj o => .obj o
  | .str _ =>
    (match Ledger.getSecretObj l secretHash with
     | .obj o => .obj o
     | _ => Ledger.getObjSecret l ("secrets/" ++ secretHash))
  | .nullv => Ledger.getObjSecret l ("secrets/" ++ secretHash)

/-- `checkSecret`: validate the input shape, then probe the Ledger:
usage flag first; if it reports used, answer valid/not-unused; otherwise
attempt the three secret lookups; answer from the record's own used flag,
or report INVALID_SECRET when no record is found. -/
def checkSecret (l : Ledger) (db : DB) (available : Bool) (secretInput : String) :
    CheckResult × Ledger × DB :=
  if secretInput == "" then
    ({ valid := false, unused := false,
       error := some (ErrorCodes.INVALID_REQUEST, "Secret is required") }, l, db)
  else
    if normalizeSecretHash secretInput == "" then
      ({ valid := false, unused := false,
         error := some (ErrorCodes.INVALID_REQUEST, "Invalid secret format") }, l, db)
    else if !available then
      ({ valid := false, unused := false,
         error := some (ErrorCodes.DATABASE_ERROR, "PathChain not available") }, l, db)
    else
      match Ledger.isSecretUsed l (normalizeSecretHash secretInput) with
      | .bool true => ({ valid := true, unused := false, error := none }, l, db)
      | _ =>
        match checkSecretResolve l (normalizeSecretHash secretInput) with
        | .obj secretObj =>
          ({ valid := true, unused := !secretObj.used, error := none }, l, db)
        | .str m =>
          ({ valid := false, unused := false,
             error := some (ErrorCodes.INVALID_SECRET, "Invalid secret: " ++ m) }, l, db)
        | .nullv =>
          ({ valid := false, unused := false,
             error := some (ErrorCodes.INVALID_SECRET,
               "Invalid secret: Secret not found in PathChain") }, l, db)

/-!
§ fetchEntityInfo and getAncestorInfo (src/services/authService.js)
-/

/-- Per-call-site PathChain results during `getAncestorInfo`: the three
lookups of the current entity's record, then the three lookups of the
ancestor's record (display data). -/
structure AncOracle where
  getCurA : JsRes (ObjOrStr EntityObj)
  getCurB : JsRes (ObjOrStr EntityObj)
  getCurC : JsRes (ObjOrStr EntityObj)
  getAncA : JsRes (ObjOrStr EntityObj)
  getAncB : JsRes (ObjOrStr EntityObj)
  getAncC : JsRes (ObjOrStr EntityObj)
deriving Repr, DecidableEq

/-- Three-attempt lookup in `getAncestorInfo`: here the attempts share one
try/catch, so a throw in a later attempt keeps the earlier value and skips
the remaining attempts. -/
def resolveChainNoInner {α : Type} (a b c : JsRes (ObjOrStr α)) : ObjOrStr α :=
  match a with
  | .thrown _ => .nullv
  | .ok (.obj o) => .obj o
  | .ok .nullv =>
    (match c with
     | .thrown _ => .nullv
     | .ok cv => cv)
  | .ok (.str s) =>
    (match b with
     | .thrown _ => .str s
     | .ok (.obj o) => .obj o
     | .ok bv =>
       (match c with
        | .thrown _ => bv
        | .ok cv => cv))

/-- The Ledger-derived fallback ancestor row: if the current entity's
PathChain record resolved and carries a non-empty ancestor path, look that
path up in the entity table. -/
def ancFallback (db : DB) (cur : ObjOrStr EntityObj) : Option EntityRow :=
  match cur with
  | .obj eo => if eo.ancestor == "" then none else Entity.findByPath db eo.ancestor
  | _ => none

/-- `fetchEntityInfo`: entity row plus its login row, or a structured
error. -/
def fetchEntityInfo (db : DB) (entityId : Nat) :
    Except (Nat × String) (EntityRow × Option LoginRow) :=
  if entityId == 0 then .error (ErrorCodes.INVALID_REQUEST, "Entity ID is required")
  else
    match Entity.findByPk db entityId with
    | none => .error (ErrorCodes.DATABASE_ERROR, "Entity not found")
    | some e => .ok (e, db.logins.find? (fun r => r.entity_id == entityId))

/-- Return shape of `getAncestorInfo`: the resolved ancestor row with its
raw PathChain record (when retrievable) and login, or a structured error. -/
inductive AncOutcome where
  | success : EntityRow → Option EntityObj → Option LoginRow → AncOutcome
  | failure : Nat → String → AncOutcome
deriving Repr, DecidableEq

/-- The stored-link (fast-path) ancestor lookup: follow the row's
ancestor_id when set (and non-zero, since 0 is falsy in the source). -/
def ancFromDb (db : DB) (entity : EntityRow) : Option EntityRow :=
  match entity.ancestor_id with
  | some aid => if aid == 0 then none else Entity.findByPk db aid
  | none => none

/-- The resolved ancestor row: fast path first, Ledger-derived fallback
when the stored link is absent or dangling. -/
def ancResolved (db : DB) (o : AncOracle) (entity : EntityRow) : Option EntityRow :=
  match ancFromDb db entity with
  | some a => some a
  | none => ancFallback db (resolveChainNoInner o.getCurA o.getCurB o.getCurC)

/-- The ancestor's raw PathChain record for display, when retrievable. -/
def ancObjOf (o : AncOracle) : Option EntityObj :=
  match resolveChainNoInner o.getAncA o.getAncB o.getAncC with
  | .obj v => some v
  | _ => none

/-- `getAncestorInfo` (the ancestor resolver): fast path through the
stored ancestor_id link, PathChain-derived fallback when that link is
missing or dangling, ANCESTOR_NOT_FOUND when both fail. The Projection
Store state is threaded to every exit. -/
def getAncestorInfo (db : DB) (o : AncOracle) (entityId : Nat) : AncOutcome × DB :=
  if entityId == 0 then
    (.failure ErrorCodes.INVALID_REQUEST "Entity ID is required", db)
  else
    match Entity.findByPk db entityId with
    | none => (.failure ErrorCodes.DATABASE_ERROR "Entity not found", db)
    | some entity =>
      match ancResolved db o entity with
      | none => (.failure ErrorCodes.ANCESTOR_NOT_FOUND "Ancestor entity not found", db)
      | some anc =>
        match fetchEntityInfo db anc.id with
        | .error em => (.failure em.1 em.2, db)
        | .ok el => (.success el.1 (ancObjOf o) el.2, db)

/-!
§ Navigation lemmas
-/

/-- Under a valid request, an unused secret, a resolvable ancestor, a
well-shaped mint result and a retrievable entity record, `register` reaches
the Projection Store transaction and behaves as `runTx`. -/
theorem register_reaches_tx
    (db : DB) (pc : RegOracle) (io : InitOracle) (fail : DbFailure) (now : Nat)
    (secretInput username password : String) (so : SecretObj) (anc : EntityRow)
    (eh : String) (eo : EntityObj)
    (hU1 : (username == "") = false) (hU2 : Nat.blt 255 (strLen username) = false)
    (hP : (password == "") = false) (hEx : Login.usernameExists db username = false)
    (hS : (secretInput == "") = false)
    (hN : (normalizeSecretHash secretInput == "") = false)
    (hAv : pc.available = true) (hIs : effectiveIsUsed pc = .bool false)
    (hRS : resolvedSecret pc = .obj so)
    (hAnc : Entity.findByPath db so.author = some anc)
    (hCE : pc.createEntity = .ok eh) (hNE : (eh == "") = false)
    (hME : mintIsError eh = false) (hRE : resolvedEntity pc = .obj eo) :
    register db pc io fail now secretInput username password =
      { runTx db fail now (normalizeSecretHash secretInput) username password anc.id eo.tag with
          trace := Ev.pcCreateEntity ::
            (runTx db fail now (normalizeSecretHash secretInput) username password
              anc.id eo.tag).trace } := by
  simp only [register, mintResult, hU1, hU2, hP, hEx, hS, hN, hAv, hIs, hRS, hAnc, hCE,
    hNE, hME, hRE, Bool.or_self, Bool.false_eq_true, if_false, ite_false, if_true, ite_true]

/-- If any injected write fails, `runTx` rolls back: original database,
DATABASE_ERROR, rollback trace. -/
theorem runTx_rollback (db : DB) (fail : DbFailure) (now : Nat)
    (normalized username password : String) (ancestorId : Nat) (entityTag : String)
    (hF : fail.entityCreateFails = true ∨ fail.secretWriteFails = true ∨
      fail.loginCreateFails = true) :
    runTx db fail now normalized username password ancestorId entityTag =
      { res := .failure ErrorCodes.DATABASE_ERROR
          (if fail.entityCreateFails then "entity insert failed"
           else if fail.secretWriteFails then "secret write failed"
           else "login insert failed"),
        db := db, trace := [Ev.txRollback] } := by
  rcases hF with h | h | h <;>
    simp only [runTx, h, if_true, ite_true] <;>
    rcases h1 : fail.entityCreateFails <;>
    rcases h2 : fail.secretWriteFails <;>
    simp [runTx, h1, h2, h]

/-- With no injected failure and no pre-existing SecretRow for the
normalized hash, `runTx` commits the three rows. -/
theorem runTx_commit (db : DB) (now : Nat)
    (normalized username password : String) (ancestorId : Nat) (entityTag : String)
    (hFS : Secret.findByPath db ("secrets/" ++ normalized) = none)
    (hN : (normalized == "") = false) :
    runTx db DbFailure.noFail now normalized username password ancestorId entityTag =
      { res := .success (generateToken db.nextEntityId username entityTag)
          db.nextEntityId entityTag username,
        db := { db with
          entities := db.entities ++
            [{ id := db.nextEntityId, path := entityTag, ancestor_id := some ancestorId }],
          secrets := db.secrets ++
            [{ id := db.nextSecretId, path := "secrets/" ++ normalized,
               owner_id := ancestorId, owner_type_id := OwnerType.ENTITY,
               used_at := some now }],
          logins := db.logins ++
            [{ id := username, entity_id := db.nextEntityId,
               password := hashPassword password, secret := some normalized }],
          nextEntityId := db.nextEntityId + 1,
          nextSecretId := db.nextSecretId + 1 },
        trace := [Ev.txCommit, Ev.pcUseSecret] } := by
  simp only [Secret.findByPath] at hFS
  simp [runTx, DbFailure.noFail, hN, Secret.findByPath, hFS]

/-!
§ Concrete fixtures used by witnesses and counterexamples
-/

/-- A 64-hex-character entity hash. -/
def wHash64 : String := String.mk (List.replicate 64 'a')

/-- An unused PathChain secret whose author is the pioneer. -/
def wSecretObj : SecretObj :=
  { register := "moments/m0", author := "entities/aaa", user := "", used := false,
    tag := "secrets/s1" }

/-- The decoded record of a freshly minted entity. -/
def wEntityObj : EntityObj :=
  { register := "moments/m1", ancestor := "entities/aaa", tag := "entities/" ++ wHash64 }

/-- A Projection Store holding just the pioneer row. -/
def wDb : DB :=
  { entities := [{ id := 1, path := "entities/aaa", ancestor_id := none }],
    secrets := [], logins := [], nextEntityId := 2, nextSecretId := 1 }

/-- PathChain results for a fully successful registration. -/
def wOracle : RegOracle :=
  { available := true, isUsed1 := .ok (.bool false),
    getSecretA := .ok (.obj wSecretObj), getSecretB := .thrown "io",
    getSecretC := .thrown "io", createEntity := .ok wHash64,
    isUsedRecheck := .ok (.bool false),
    getEntityA := .ok (.obj wEntityObj), getEntityB := .thrown "io",
    getEntityC := .thrown "io", useSecretThrows := none }

/-- PathChain results for a successful pioneer bootstrap. -/
def wInit : InitOracle :=
  { createPioneer := .ok "abc",
    getPioneer := .ok (.obj ⟨"moments/mp", "entities/abc", "entities/abc"⟩),
    fsSecretHash := some "s0" }

/-- Failure injection: the SecretRow write inside the transaction fails. -/
def wFailSecret : DbFailure :=
  { entityCreateFails := false, secretWriteFails := true, loginCreateFails := false }

/-!
§ C1 — transaction atomicity
-/

/-- C1: for a registration that reaches the Projection Store transaction
(valid unused secret, fresh username, successful mint and entity fetch),
if any of the three writes inside the transaction fails (EntityRow insert,
SecretRow upsert, Login insert), the whole transaction is rolled back: the
Projection Store keeps zero rows from the attempt (state unchanged) and
register returns the DATABASE_ERROR code. -/
theorem register_tx_rollback_atomic
    (db : DB) (pc : RegOracle) (io : InitOracle) (fail : DbFailure) (now : Nat)
    (secretInput username password : String) (so : SecretObj) (anc : EntityRow)
    (eh : String) (eo : EntityObj)
    (hU1 : (username == "") = false) (hU2 : Nat.blt 255 (strLen username) = false)
    (hP : (password == "") = false) (hEx : Login.usernameExists db username = false)
    (hS : (secretInput == "") = false)
    (hN : (normalizeSecretHash secretInput == "") = false)
    (hAv : pc.available = true) (hIs : effectiveIsUsed pc = .bool false)
    (hRS : resolvedSecret pc = .obj so)
    (hAnc : Entity.findByPath db so.author = some anc)
    (hCE : pc.createEntity = .ok eh) (hNE : (eh == "") = false)
    (hME : mintIsError eh = false) (hRE : resolvedEntity pc = .obj eo)
    (hF : fail.entityCreateFails = true ∨ fail.secretWriteFails = true ∨
      fail.loginCreateFails = true) :
    (register db pc io fail now secretInput username password).db = db ∧
    (register db pc io fail now secretInput username password).code =
      some ErrorCodes.DATABASE_ERROR ∧
    (register db pc io fail now secretInput username password).trace =
      [Ev.pcCreateEntity, Ev.txRollback] := by
  rw [register_reaches_tx db pc io fail now secretInput username password so anc eh eo
    hU1 hU2 hP hEx hS hN hAv hIs hRS hAnc hCE hNE hME hRE]
  rw [runTx_rollback db fail now (normalizeSecretHash secretInput) username password
    anc.id eo.tag hF]
  simp [RegResult.code]

/-- Witness for C1: a concrete registration whose SecretRow write fails is
rolled back with DATABASE_ERROR and an unchanged store. -/
theorem register_tx_rollback_atomic_witness :
    (register wDb wOracle wInit wFailSecret 7 "s1" "alice" "pw").db = wDb ∧
    (register wDb wOracle wInit wFailSecret 7 "s1" "alice" "pw").code =
      some ErrorCodes.DATABASE_ERROR ∧
    (register wDb wOracle wInit wFailSecret 7 "s1" "alice" "pw").trace =
      [Ev.pcCreateEntity, Ev.txRollback] :=
  register_tx_rollback_atomic wDb wOracle wInit wFailSecret 7 "s1" "alice" "pw"
    wSecretObj ⟨1, "entities/aaa", none⟩ wHash64 wEntityObj
    (by decide) (by decide) (by decide) (by decide) (by decide) (by decide)
    (by decide) (by decide) (by decide) (by decide) (by decide) (by decide)
    (by decide) (by decide) (Or.inr (Or.inl (by decide)))

/-!
§ C2 — used secret rejection
-/

/-- Marking the keyed entry leaves it findable with the new value. -/
theorem find_after_update (sl : List (String × SecretObj)) (h : String) (v : SecretObj)
    (hf : (sl.find? (fun p => p.1 == h)).isSome = true) :
    ((sl.map (fun p => if p.1 == h then (p.1, v) else p)).find?
      (fun p => p.1 == h)) = some (h, v) := by
  induction sl with
  | nil => simp [List.find?] at hf
  | cons a t ih =>
    rcases hk : (a.1 == h) with _ | _
    · have hf2 : (t.find? (fun p => p.1 == h)).isSome = true := by
        simpa [List.find?, hk] using hf
      simpa [List.find?, hk] using ih hf2
    · have ha : a.1 = h := by simpa using hk
      simp [List.find?, hk, ha]

/-- C2: when the Ledger usage check reports the secret consumed, register
returns USED_SECRET and writes nothing; moreover in the Ledger model a
successful mint flips the secret's used flag, so every later usage check on
that secret returns true. -/
theorem register_used_secret_rejected
    (db : DB) (pc : RegOracle) (io : InitOracle) (fail : DbFailure) (now : Nat)
    (secretInput username password : String)
    (hU1 : (username == "") = false) (hU2 : Nat.blt 255 (strLen username) = false)
    (hP : (password == "") = false) (hEx : Login.usernameExists db username = false)
    (hS : (secretInput == "") = false)
    (hN : (normalizeSecretHash secretInput == "") = false)
    (hAv : pc.available = true)
    (hIs : pc.isUsed1 = .ok (.bool true)) :
    register db pc io fail now secretInput username password =
      { res := .failure ErrorCodes.USED_SECRET "Secret has already been used",
        db := db, trace := [] } ∧
    (∀ (l : Ledger) (h nh m : String) (s : SecretObj),
      Ledger.lookupSecret l h = some s → s.used = false →
      Ledger.isSecretUsed (Ledger.makeEntity l h nh m).2 h = .bool true) := by
  constructor
  · have hEff : effectiveIsUsed pc = .bool true := by
      simp [effectiveIsUsed, hIs]
    simp only [register, hU1, hU2, hP, hEx, hS, hN, hAv, hEff, Bool.or_self,
      Bool.false_eq_true, if_false, ite_false, if_true, ite_true]
  · intro l h nh m s hls hu
    have hf : (l.secrets.find? (fun p => p.1 == h)).isSome = true := by
      rcases hfind : l.secrets.find? (fun p => p.1 == h) with _ | w
      · rw [Ledger.lookupSecret, hfind] at hls; simp at hls
      · rw [hfind]; rfl
    have hupd := find_after_update l.secrets h
      { s with used := true, user := "entities/" ++ nh } hf
    simp only [Ledger.makeEntity, hls, hu, Bool.false_eq_true, if_false, ite_false]
    simp only [Ledger.isSecretUsed, Ledger.lookupSecret, hupd, Option.map_some]
    rfl

/-- A Ledger holding the single unused secret `s1`. -/
def wLedger : Ledger := { secrets := [("s1", wSecretObj)], entities := [] }

/-- Oracle reporting the usage check as true. -/
def wOracleUsed : RegOracle := { wOracle with isUsed1 := .ok (.bool true) }

/-- Witness for C2 at a concrete used secret and a concrete Ledger mint. -/
theorem register_used_secret_rejected_witness :
    register wDb wOracleUsed wInit DbFailure.noFail 7 "s1" "bob" "pw2" =
      { res := .failure ErrorCodes.USED_SECRET "Secret has already been used",
        db := wDb, trace := [] } ∧
    Ledger.isSecretUsed (Ledger.makeEntity wLedger "s1" wHash64 "moments/m1").2 "s1" =
      .bool true := by
  have h := register_used_secret_rejected wDb wOracleUsed wInit DbFailure.noFail 7
    "s1" "bob" "pw2" (by decide) (by decide) (by decide) (by decide) (by decide)
    (by decide) (by decide) (by decide)
  exact ⟨h.1, h.2 wLedger "s1" wHash64 "moments/m1" wSecretObj (by decide) (by decide)⟩

/-!
§ C4 — bootstrap branch
-/

/-- After appending a fresh SecretRow and marking its id used, the row is
findable by path with used_at set (given no earlier row had that path). -/
theorem findByPath_after_mark (sl : List SecretRow) (p : String) (row : SecretRow)
    (now : Nat) (hnone : sl.find? (fun r => r.path == p) = none) (hp : row.path = p) :
    ((sl ++ [row]).map
      (fun r => if r.id == row.id then { r with used_at := some now } else r)).find?
      (fun r => r.path == p) = some { row with used_at := some now } := by
  induction sl with
  | nil => simp [List.find?, hp]
  | cons a t ih =>
    have ha : (a.path == p) = false := by
      rcases hq : (a.path == p) with _ | _
      · rfl
      · simp [List.find?, hq] at hnone
    have ht : t.find? (fun r => r.path == p) = none := by
      simpa [List.find?, ha] using hnone
    rcases hid : (a.id == row.id) with _ | _ <;>
      simpa [List.find?, hid, ha] using ih ht

/-- C4: registering with no secret is legal only when no root exists. If a
pioneer row exists the call returns INVALID_SECRET with nothing written;
otherwise the system bootstraps: the new root row (null ancestor, i.e. its
own ancestor) is inserted and returned as the new Entity, and the root's
auto-issued secret is recorded in the Projection Store with its used_at
timestamp set. -/
theorem register_bootstrap_branch
    (db : DB) (pc : RegOracle) (io : InitOracle) (fail : DbFailure) (now : Nat)
    (username password : String)
    (hU1 : (username == "") = false) (hU2 : Nat.blt 255 (strLen username) = false)
    (hP : (password == "") = false) (hEx : Login.usernameExists db username = false) :
    (∀ p, Entity.findPioneer db = some p →
      register db pc io fail now "" username password =
        { res := .failure ErrorCodes.INVALID_SECRET "Secret is required for registration",
          db := db, trace := [] }) ∧
    (∀ ph po, Entity.findPioneer db = none →
      io.createPioneer = .ok ph → (ph == "") = false →
      strIncludes ph "error" = false → io.getPioneer = .ok (.obj po) →
      Secret.findByPath db ("secrets/" ++ io.fsSecretHash.getD ph) = none →
      register db pc io fail now "" username password =
        { res := .success (generateToken db.nextEntityId username po.tag)
            db.nextEntityId po.tag username,
          db := DB.markSecretUsed
            { db with
                entities := db.entities ++ [⟨db.nextEntityId, po.tag, none⟩],
                secrets := db.secrets ++
                  [⟨db.nextSecretId, "secrets/" ++ io.fsSecretHash.getD ph,
                    db.nextEntityId, OwnerType.ENTITY, none⟩],
                nextEntityId := db.nextEntityId + 1,
                nextSecretId := db.nextSecretId + 1 }
            db.nextSecretId now,
          trace := [] } ∧
      Secret.findByPath
        (register db pc io fail now "" username password).db
        ("secrets/" ++ io.fsSecretHash.getD ph) =
        some ⟨db.nextSecretId, "secrets/" ++ io.fsSecretHash.getD ph,
          db.nextEntityId, OwnerType.ENTITY, some now⟩) := by
  constructor
  · intro p hPio
    simp only [register, hU1, hU2, hP, hEx, hPio, Bool.or_self, Bool.false_eq_true,
      if_false, ite_false, if_true, ite_true]
    rfl
  · intro ph po hPio hCP hPh1 hPh2 hGP hFS
    simp only [Secret.findByPath] at hFS
    have hreg : register db pc io fail now "" username password =
        { res := .success (generateToken db.nextEntityId username po.tag)
            db.nextEntityId po.tag username,
          db := DB.markSecretUsed
            { db with
                entities := db.entities ++ [⟨db.nextEntityId, po.tag, none⟩],
                secrets := db.secrets ++
                  [⟨db.nextSecretId, "secrets/" ++ io.fsSecretHash.getD ph,
                    db.nextEntityId, OwnerType.ENTITY, none⟩],
                nextEntityId := db.nextEntityId + 1,
                nextSecretId := db.nextSecretId + 1 }
            db.nextSecretId now,
          trace := [] } := by
      simp only [register, initializeSystem, hU1, hU2, hP, hEx, hPio, hCP, hPh1, hPh2,
        hGP, hFS, Secret.findByPath, Bool.or_self, Bool.false_eq_true, Bool.or_false,
        beq_self_eq_true, if_false, ite_false, if_true, ite_true]
    refine ⟨hreg, ?_⟩
    rw [hreg]
    simp only [DB.markSecretUsed, Secret.findByPath]
    exact findByPath_after_mark db.secrets ("secrets/" ++ io.fsSecretHash.getD ph)
      ⟨db.nextSecretId, "secrets/" ++ io.fsSecretHash.getD ph,
        db.nextEntityId, OwnerType.ENTITY, none⟩ now hFS rfl

/-- An empty Projection Store. -/
def wEmptyDb : DB :=
  { entities := [], secrets := [], logins := [], nextEntityId := 1, nextSecretId := 1 }

/-- Witness for C4: with a pioneer present the empty-secret call fails with
INVALID_SECRET; on an empty store it bootstraps the root and marks the
auto-issued secret consumed. -/
theorem register_bootstrap_branch_witness :
    register wDb wOracle wInit DbFailure.noFail 7 "" "alice" "pw" =
      { res := .failure ErrorCodes.INVALID_SECRET "Secret is required for registration",
        db := wDb, trace := [] } ∧
    Secret.findByPath
      (register wEmptyDb wOracle wInit DbFailure.noFail 7 "" "alice" "pw").db
      "secrets/s0" = some ⟨1, "secrets/s0", 1, OwnerType.ENTITY, some 7⟩ := by
  constructor
  · exact (register_bootstrap_branch wDb wOracle wInit DbFailure.noFail 7 "alice" "pw"
      (by decide) (by decide) (by decide) (by decide)).1
      ⟨1, "entities/aaa", none⟩ (by decide)
  · exact ((register_bootstrap_branch wEmptyDb wOracle wInit DbFailure.noFail 7
      "alice" "pw" (by decide) (by decide) (by decide) (by decide)).2
      "abc" ⟨"moments/mp", "entities/abc", "entities/abc"⟩ (by decide) (by decide)
      (by decide) (by decide) (by decide) (by decide)).2

/-!
§ C6 — root bootstrap idempotence and uniqueness
-/

/-- The min-id fold over a nonempty accumulator stays defined. -/
theorem pickMin_isSome (l : List EntityRow) (b : EntityRow) :
    (l.foldl (fun acc r =>
      match acc with
      | none => some r
      | some c => if r.id < c.id then some r else some c) (some b)).isSome = true := by
  induction l generalizing b with
  | nil => rfl
  | cons a t ih =>
    simp only [List.foldl]
    by_cases hab : a.id < b.id
    · simpa [hab] using ih a
    · simpa [hab] using ih b

/-- `findPioneer` is none exactly when there is no root row. -/
theorem findPioneer_none_iff (db : DB) :
    Entity.findPioneer db = none ↔ DB.rootRows db = [] := by
  constructor
  · intro h
    rcases hr : DB.rootRows db with _ | ⟨a, t⟩
    · rfl
    · exfalso
      have hs := pickMin_isSome t a
      rw [Entity.findPioneer, hr] at h
      simp only [List.foldl] at h
      rw [h] at hs
      simp at hs
  · intro h
    simp [Entity.findPioneer, h]

/-- With a single root row, `findPioneer` returns it. -/
theorem findPioneer_single (db : DB) (row : EntityRow) (h : DB.rootRows db = [row]) :
    Entity.findPioneer db = some row := by
  simp [Entity.findPioneer, h, List.foldl]

/-- `initializeSystem` on an already-initialized store returns the
existing pioneer and leaves the store unchanged. -/
theorem initializeSystem_existing (db : DB) (o : InitOracle) (p : EntityRow)
    (hP : Entity.findPioneer db = some p) :
    initializeSystem db o = .ok (⟨p, none, false, o.fsSecretHash⟩, db) := by
  simp [initializeSystem, hP]

/-- On an uninitialized store, a successful `initializeSystem` run creates
the pioneer row with null ancestor and appends exactly that entity row. -/
theorem initializeSystem_create_shape (db : DB) (o : InitOracle) (r : InitResult)
    (db1 : DB) (hP : Entity.findPioneer db = none)
    (h : initializeSystem db o = .ok (r, db1)) :
    r.pioneer = ⟨db.nextEntityId, r.pioneer.path, none⟩ ∧ r.isNew = true ∧
      db1.entities = db.entities ++ [r.pioneer] := by
  simp only [initializeSystem, hP] at h
  repeat' split at h
  all_goals
    first
    | (simp at h; done)
    | (simp only [Except.ok.injEq, Prod.mk.injEq] at h;
       obtain ⟨hr, hdb⟩ := h;
       subst hdb;
       subst hr;
       simp)

/-- Appending the single pioneer row to a rootless store gives exactly one
root row. -/
theorem rootRows_after_create (db db1 : DB) (rp : EntityRow)
    (hroots : DB.rootRows db = []) (hanc : rp.ancestor_id = none)
    (hent : db1.entities = db.entities ++ [rp]) :
    DB.rootRows db1 = [rp] := by
  rw [DB.rootRows] at hroots
  rw [DB.rootRows, hent, List.filter_append, hroots]
  simp [hanc]

/-- C6: root bootstrap is idempotent and root-unique: when a pioneer row
exists, `initializeSystem` returns it with the store untouched; a
successful run from a rootless store leaves exactly one root row, which
`findPioneer` returns; and any run immediately after a successful run
returns the same pioneer row and changes nothing. -/
theorem initializeSystem_idempotent_root_unique :
    (∀ (db : DB) (o : InitOracle) (p : EntityRow), Entity.findPioneer db = some p →
      initializeSystem db o = .ok (⟨p, none, false, o.fsSecretHash⟩, db)) ∧
    (∀ (db : DB) (o : InitOracle) (r : InitResult) (db1 : DB), DB.rootCount db = 0 →
      initializeSystem db o = .ok (r, db1) →
      DB.rootCount db1 = 1 ∧ Entity.findPioneer db1 = some r.pioneer) ∧
    (∀ (db : DB) (o1 o2 : InitOracle) (r1 : InitResult) (db1 : DB),
      initializeSystem db o1 = .ok (r1, db1) →
      initializeSystem db1 o2 = .ok (⟨r1.pioneer, none, false, o2.fsSecretHash⟩, db1)) := by
  refine ⟨initializeSystem_existing, ?_, ?_⟩
  · intro db o r db1 hc h
    have hroots : DB.rootRows db = [] := List.length_eq_zero.mp hc
    have hP : Entity.findPioneer db = none := (findPioneer_none_iff db).mpr hroots
    obtain ⟨hpio, _, hent⟩ := initializeSystem_create_shape db o r db1 hP h
    have hanc : r.pioneer.ancestor_id = none := by rw [hpio]
    have hroots1 : DB.rootRows db1 = [r.pioneer] :=
      rootRows_after_create db db1 r.pioneer hroots hanc hent
    constructor
    · rw [DB.rootCount, hroots1]
      rfl
    · exact findPioneer_single db1 r.pioneer hroots1
  · intro db o1 o2 r1 db1 h
    rcases hP : Entity.findPioneer db with _ | p
    · have hroots : DB.rootRows db = [] := (findPioneer_none_iff db).mp hP
      obtain ⟨hpio, _, hent⟩ := initializeSystem_create_shape db o1 r1 db1 hP h
      have hanc : r1.pioneer.ancestor_id = none := by rw [hpio]
      have hroots1 : DB.rootRows db1 = [r1.pioneer] :=
        rootRows_after_create db db1 r1.pioneer hroots hanc hent
      exact initializeSystem_existing db1 o2 r1.pioneer
        (findPioneer_single db1 r1.pioneer hroots1)
    · rw [initializeSystem_existing db o1 p hP] at h
      simp only [Except.ok.injEq, Prod.mk.injEq] at h
      obtain ⟨hr, hdb⟩ := h
      subst hdb
      rw [← hr]
      exact initializeSystem_existing db o2 p hP

/-- The store produced by bootstrapping an empty store with `wInit`. -/
def wBootDb : DB :=
  { entities := [⟨1, "entities/abc", none⟩],
    secrets := [⟨1, "secrets/s0", 1, OwnerType.ENTITY, none⟩],
    logins := [], nextEntityId := 2, nextSecretId := 2 }

/-- Witness for C6: a second `initializeSystem` call on an initialized
store returns the existing pioneer unchanged, both on `wDb` and right
after a concrete bootstrap. -/
theorem initializeSystem_idempotent_root_unique_witness :
    initializeSystem wDb wInit =
      .ok (⟨⟨1, "entities/aaa", none⟩, none, false, some "s0"⟩, wDb) ∧
    initializeSystem wBootDb wInit =
      .ok (⟨⟨1, "entities/abc", none⟩, none, false, some "s0"⟩, wBootDb) := by
  constructor
  · exact initializeSystem_idempotent_root_unique.1 wDb wInit
      ⟨1, "entities/aaa", none⟩ (by decide)
  · exact initializeSystem_idempotent_root_unique.2.2 wEmptyDb wInit wInit
      ⟨⟨1, "entities/abc", none⟩, some ⟨1, "secrets/s0", 1, OwnerType.ENTITY, none⟩,
        true, some "s0"⟩ wBootDb (by rfl)

/-!
§ C8 — Ledger confirmation strictly after commit, failure swallowed
-/

/-- The available-branch transaction trace is always ordered: its
`pcUseSecret` event exists only on the commit path, after `txCommit`. -/
theorem traceOrdered_runTx (db : DB) (fail : DbFailure) (now : Nat)
    (normalized username password : String) (ancestorId : Nat) (entityTag : String) :
    traceOrdered (Ev.pcCreateEntity ::
      (runTx db fail now normalized username password ancestorId entityTag).trace) = true := by
  rcases h1 : fail.entityCreateFails <;> rcases h2 : fail.secretWriteFails <;>
    rcases h3 : fail.loginCreateFails <;>
    simp [runTx, h1, h2, h3, traceOrdered, traceOrderedAux]

/-- The unavailable-branch transaction trace is always ordered (it never
emits a `pcUseSecret` event). -/
theorem traceOrdered_runTxUnavailable (db : DB) (fail : DbFailure) (now : Nat)
    (normalized username password : String) (ancestorId : Nat) :
    traceOrdered (runTxUnavailable db fail now normalized username password
      ancestorId).trace = true := by
  rcases h1 : fail.entityCreateFails <;> rcases h2 : fail.secretWriteFails <;>
    rcases h3 : fail.loginCreateFails <;>
    simp [runTxUnavailable, h1, h2, h3, traceOrdered, traceOrderedAux]

/-- In every run of `register`, on every path, the Ledger confirmation
event can only appear after the transaction commit event. -/
theorem register_trace_ordered (db : DB) (pc : RegOracle) (io : InitOracle)
    (fail : DbFailure) (now : Nat) (secretInput username password : String) :
    traceOrdered (register db pc io fail now secretInput username password).trace = true := by
  rw [register]
  repeat' split
  all_goals
    first
    | rfl
    | exact traceOrdered_runTx _ _ _ _ _ _ _ _
    | exact traceOrdered_runTxUnavailable _ _ _ _ _ _ _
    | (rw [mintFailureResult]; split <;> rfl)

/-- C8: the Ledger-side confirmation (`useSecret`) is invoked only after
the Projection Store transaction commits, and its failure is swallowed:
with the confirmation call throwing, a committed registration still
returns success and the committed rows, and every register trace orders
`pcUseSecret` strictly after `txCommit`. -/
theorem register_confirmation_after_commit
    (db : DB) (pc : RegOracle) (io : InitOracle) (now : Nat)
    (secretInput username password em : String) (so : SecretObj) (anc : EntityRow)
    (eh : String) (eo : EntityObj)
    (hU1 : (username == "") = false) (hU2 : Nat.blt 255 (strLen username) = false)
    (hP : (password == "") = false) (hEx : Login.usernameExists db username = false)
    (hS : (secretInput == "") = false)
    (hN : (normalizeSecretHash secretInput == "") = false)
    (hAv : pc.available = true) (hIs : effectiveIsUsed pc = .bool false)
    (hRS : resolvedSecret pc = .obj so)
    (hAnc : Entity.findByPath db so.author = some anc)
    (hCE : pc.createEntity = .ok eh) (hNE : (eh == "") = false)
    (hME : mintIsError eh = false) (hRE : resolvedEntity pc = .obj eo)
    (hFS : Secret.findByPath db ("secrets/" ++ normalizeSecretHash secretInput) = none)
    (_hThrow : pc.useSecretThrows = some em) :
    register db pc io DbFailure.noFail now secretInput username password =
      { res := .success (generateToken db.nextEntityId username eo.tag)
          db.nextEntityId eo.tag username,
        db := { db with
          entities := db.entities ++ [⟨db.nextEntityId, eo.tag, some anc.id⟩],
          secrets := db.secrets ++
            [⟨db.nextSecretId, "secrets/" ++ normalizeSecretHash secretInput,
              anc.id, OwnerType.ENTITY, some now⟩],
          logins := db.logins ++
            [⟨username, db.nextEntityId, hashPassword password,
              some (normalizeSecretHash secretInput)⟩],
          nextEntityId := db.nextEntityId + 1,
          nextSecretId := db.nextSecretId + 1 },
        trace := [Ev.pcCreateEntity, Ev.txCommit, Ev.pcUseSecret] } ∧
    traceOrdered (register db pc io DbFailure.noFail now
      secretInput username password).trace = true := by
  constructor
  · rw [register_reaches_tx db pc io DbFailure.noFail now secretInput username password
      so anc eh eo hU1 hU2 hP hEx hS hN hAv hIs hRS hAnc hCE hNE hME hRE]
    rw [runTx_commit db now (normalizeSecretHash secretInput) username password
      anc.id eo.tag hFS hN]
  · exact register_trace_ordered db pc io DbFailure.noFail now secretInput username password

/-- Oracle identical to `wOracle` but whose Ledger confirmation throws. -/
def wOracleConfirmThrows : RegOracle := { wOracle with useSecretThrows := some "efs down" }

/-- Witness for C8: a concrete committed registration succeeds although the
Ledger confirmation throws, with the commit event before the confirmation
event. -/
theorem register_confirmation_after_commit_witness :
    register wDb wOracleConfirmThrows wInit DbFailure.noFail 7 "s1" "alice" "pw" =
      { res := .success (generateToken 2 "alice" wEntityObj.tag) 2 wEntityObj.tag "alice",
        db := { entities := [⟨1, "entities/aaa", none⟩, ⟨2, wEntityObj.tag, some 1⟩],
                secrets := [⟨1, "secrets/s1", 1, OwnerType.ENTITY, some 7⟩],
                logins := [⟨"alice", 2, hashPassword "pw", some "s1"⟩],
                nextEntityId := 3, nextSecretId := 2 },
        trace := [Ev.pcCreateEntity, Ev.txCommit, Ev.pcUseSecret] } ∧
    traceOrdered (register wDb wOracleConfirmThrows wInit DbFailure.noFail 7
      "s1" "alice" "pw").trace = true :=
  register_confirmation_after_commit wDb wOracleConfirmThrows wInit 7 "s1" "alice" "pw"
    "efs down" wSecretObj ⟨1, "entities/aaa", none⟩ wHash64 wEntityObj
    (by decide) (by decide) (by decide) (by decide) (by decide) (by decide)
    (by decide) (by decide) (by decide) (by decide) (by decide) (by decide)
    (by decide) (by decide) (by decide) (by decide)

/-!
§ C9 — checkSecret is a read-only probe
-/

/-- C9: `checkSecret` leaves the Ledger and every Projection Store table
unchanged on every path — it is a pure probe. -/
theorem checkSecret_readonly :
    ∀ (l : Ledger) (db : DB) (available : Bool) (secretInput : String),
      (checkSecret l db available secretInput).2.1 = l ∧
      (checkSecret l db available secretInput).2.2 = db := by
  intro l db available s
  rw [checkSecret]
  repeat' split
  all_goals exact ⟨rfl, rfl⟩

/-!
§ C10 — PathChain-unavailable registration bypass
-/

/-- Oracle for a run with the PathChain library not loaded. -/
def wOracleUnavailable : RegOracle := { wOracle with available := false }

/-- Counterexample for C10 as stated: the input `" "` is non-empty but
normalizes to the empty hash, so even with PathChain unavailable register
answers INVALID_SECRET instead of succeeding. -/
theorem register_pathchain_unavailable_counterexample :
    register wDb wOracleUnavailable wInit DbFailure.noFail 7 " " "carol" "pw" =
      { res := .failure ErrorCodes.INVALID_SECRET "Invalid secret format",
        db := wDb, trace := [] } ∧
    (" " == "") = false ∧ Login.usernameExists wDb "carol" = false := by
  decide

/-- With no injected failure the unavailable-branch transaction commits
its three rows. -/
theorem runTxUnavailable_commit (db : DB) (now : Nat)
    (normalized username password : String) (ancestorId : Nat)
    (hN : (normalized == "") = false) :
    runTxUnavailable db DbFailure.noFail now normalized username password ancestorId =
      { res := .success (generateToken db.nextEntityId username
            ("entities/" ++ normalized))
          db.nextEntityId ("entities/" ++ normalized) username,
        db := { db with
          entities := db.entities ++
            [⟨db.nextEntityId, "entities/" ++ normalized, some ancestorId⟩],
          secrets := db.secrets ++
            [⟨db.nextSecretId, "secrets/" ++ normalized, ancestorId,
              OwnerType.ENTITY, some now⟩],
          logins := db.logins ++
            [⟨username, db.nextEntityId, hashPassword password, some normalized⟩],
          nextEntityId := db.nextEntityId + 1,
          nextSecretId := db.nextSecretId + 1 },
        trace := [Ev.txCommit] } := by
  simp [runTxUnavailable, DbFailure.noFail, hN]

/-- C10 (amended): when the PathChain library is not loaded, register with
a secret input whose NORMALIZED form is non-empty and a fresh username
performs no secret validation at all — no existence check, no prior-use
check, no author lookup — and in one transaction inserts an EntityRow at
`entities/{normalized}` with the pioneer as ancestor, a SecretRow already
marked used, and a Login row, then returns success. -/
theorem register_pathchain_unavailable
    (db : DB) (pc : RegOracle) (io : InitOracle) (now : Nat)
    (secretInput username password : String) (p : EntityRow)
    (hU1 : (username == "") = false) (hU2 : Nat.blt 255 (strLen username) = false)
    (hP : (password == "") = false) (hEx : Login.usernameExists db username = false)
    (hS : (secretInput == "") = false)
    (hN : (normalizeSecretHash secretInput == "") = false)
    (hAv : pc.available = false)
    (hPio : Entity.findPioneer db = some p) :
    register db pc io DbFailure.noFail now secretInput username password =
      { res := .success (generateToken db.nextEntityId username
            ("entities/" ++ normalizeSecretHash secretInput))
          db.nextEntityId ("entities/" ++ normalizeSecretHash secretInput) username,
        db := { db with
          entities := db.entities ++
            [⟨db.nextEntityId, "entities/" ++ normalizeSecretHash secretInput,
              some p.id⟩],
          secrets := db.secrets ++
            [⟨db.nextSecretId, "secrets/" ++ normalizeSecretHash secretInput,
              p.id, OwnerType.ENTITY, some now⟩],
          logins := db.logins ++
            [⟨username, db.nextEntityId, hashPassword password,
              some (normalizeSecretHash secretInput)⟩],
          nextEntityId := db.nextEntityId + 1,
          nextSecretId := db.nextSecretId + 1 },
        trace := [Ev.txCommit] } := by
  have hstep : register db pc io DbFailure.noFail now secretInput username password =
      runTxUnavailable db DbFailure.noFail now (normalizeSecretHash secretInput)
        username password p.id := by
    simp only [register, hU1, hU2, hP, hEx, hS, hN, hAv, hPio, Bool.or_self,
      Bool.false_eq_true, if_false, ite_false, if_true, ite_true]
  rw [hstep]
  exact runTxUnavailable_commit db now (normalizeSecretHash secretInput)
    username password p.id hN

/-- Witness for C10 at a concrete arbitrary string secret. -/
theorem register_pathchain_unavailable_witness :
    register wDb wOracleUnavailable wInit DbFailure.noFail 7 "anything-goes" "carol" "pw" =
      { res := .success (generateToken 2 "carol" "entities/anything-goes")
          2 "entities/anything-goes" "carol",
        db := { entities := [⟨1, "entities/aaa", none⟩,
                  ⟨2, "entities/anything-goes", some 1⟩],
                secrets := [⟨1, "secrets/anything-goes", 1, OwnerType.ENTITY, some 7⟩],
                logins := [⟨"carol", 2, hashPassword "pw", some "anything-goes"⟩],
                nextEntityId := 3, nextSecretId := 2 },
        trace := [Ev.txCommit] } :=
  register_pathchain_unavailable wDb wOracleUnavailable wInit 7 "anything-goes"
    "carol" "pw" ⟨1, "entities/aaa", none⟩ (by decide) (by decide) (by decide)
    (by decide) (by decide) (by decide) (by decide) (by decide)

/-!
§ C5 — usage-check failures and the not-found outcome
-/

/-- Oracle whose Ledger usage check throws while the secret object lookup
still succeeds. -/
def wOracleUsageThrows : RegOracle := { wOracle with isUsed1 := .thrown "EISDIR" }

/-- Counterexample for C5 as stated: with the usage check throwing,
register assumes the secret unused and proceeds all the way to a
successful mint and commit (the trace records the `createEntity` call). -/
theorem usage_check_conflated_counterexample :
    wOracleUsageThrows.isUsed1 = .thrown "EISDIR" ∧
    (register wDb wOracleUsageThrows wInit DbFailure.noFail 7 "s1" "dana" "pw").trace =
      [Ev.pcCreateEntity, Ev.txCommit, Ev.pcUseSecret] ∧
    (register wDb wOracleUsageThrows wInit DbFailure.noFail 7 "s1" "dana"
      "pw").res.isSuccessShape = true := by
  decide

/-- C5 (amended): the Ledger usage check does yield a distinguishable
not-found outcome (an error string), but register conflates check failures
with "unused": when `isSecretUsed` throws, it assumes the secret unused and
continues; whenever the secret object lookup, ancestor lookup, mint and
entity fetch then succeed, it mints and commits the registration. -/
theorem usage_check_failure_behavior
    (db : DB) (pc : RegOracle) (io : InitOracle) (now : Nat)
    (secretInput username password msg : String) (so : SecretObj) (anc : EntityRow)
    (eh : String) (eo : EntityObj)
    (hU1 : (username == "") = false) (hU2 : Nat.blt 255 (strLen username) = false)
    (hP : (password == "") = false) (hEx : Login.usernameExists db username = false)
    (hS : (secretInput == "") = false)
    (hN : (normalizeSecretHash secretInput == "") = false)
    (hAv : pc.available = true)
    (hIsThrown : pc.isUsed1 = .thrown msg)
    (hRS : resolvedSecret pc = .obj so)
    (hAnc : Entity.findByPath db so.author = some anc)
    (hCE : pc.createEntity = .ok eh) (hNE : (eh == "") = false)
    (hME : mintIsError eh = false) (hRE : resolvedEntity pc = .obj eo)
    (hFS : Secret.findByPath db ("secrets/" ++ normalizeSecretHash secretInput) = none) :
    (∀ (l : Ledger) (h : String), Ledger.lookupSecret l h = none →
      Ledger.isSecretUsed l h = .str ("Secret " ++ h ++ " not found")) ∧
    register db pc io DbFailure.noFail now secretInput username password =
      { res := .success (generateToken db.nextEntityId username eo.tag)
          db.nextEntityId eo.tag username,
        db := { db with
          entities := db.entities ++ [⟨db.nextEntityId, eo.tag, some anc.id⟩],
          secrets := db.secrets ++
            [⟨db.nextSecretId, "secrets/" ++ normalizeSecretHash secretInput,
              anc.id, OwnerType.ENTITY, some now⟩],
          logins := db.logins ++
            [⟨username, db.nextEntityId, hashPassword password,
              some (normalizeSecretHash secretInput)⟩],
          nextEntityId := db.nextEntityId + 1,
          nextSecretId := db.nextSecretId + 1 },
        trace := [Ev.pcCreateEntity, Ev.txCommit, Ev.pcUseSecret] } := by
  constructor
  · intro l h hnone
    simp [Ledger.isSecretUsed, hnone]
  · have hIs : effectiveIsUsed pc = .bool false := by
      simp [effectiveIsUsed, hIsThrown]
    rw [register_reaches_tx db pc io DbFailure.noFail now secretInput username password
      so anc eh eo hU1 hU2 hP hEx hS hN hAv hIs hRS hAnc hCE hNE hME hRE]
    rw [runTx_commit db now (normalizeSecretHash secretInput) username password
      anc.id eo.tag hFS hN]

/-- Witness for C5 (amended) at a concrete thrown usage check. -/
theorem usage_check_failure_behavior_witness :
    Ledger.isSecretUsed { secrets := [], entities := [] } "zz" =
      .str ("Secret " ++ "zz" ++ " not found") ∧
    register wDb wOracleUsageThrows wInit DbFailure.noFail 7 "s1" "dana" "pw" =
      { res := .success (generateToken 2 "dana" wEntityObj.tag) 2 wEntityObj.tag "dana",
        db := { entities := [⟨1, "entities/aaa", none⟩, ⟨2, wEntityObj.tag, some 1⟩],
                secrets := [⟨1, "secrets/s1", 1, OwnerType.ENTITY, some 7⟩],
                logins := [⟨"dana", 2, hashPassword "pw", some "s1"⟩],
                nextEntityId := 3, nextSecretId := 2 },
        trace := [Ev.pcCreateEntity, Ev.txCommit, Ev.pcUseSecret] } := by
  have h := usage_check_failure_behavior wDb wOracleUsageThrows wInit 7 "s1" "dana"
    "pw" "EISDIR" wSecretObj ⟨1, "entities/aaa", none⟩ wHash64 wEntityObj
    (by decide) (by decide) (by decide) (by decide) (by decide) (by decide)
    (by decide) (by decide) (by decide) (by decide) (by decide) (by decide)
    (by decide) (by decide) (by decide)
  exact ⟨h.1 { secrets := [], entities := [] } "zz" (by decide), h.2⟩

/-!
§ C3 — interpretation of the mint result

A 64-hex string can contain none of the error keywords (each keyword has a
non-hex character), and trimming is the identity on it; conversely a string
passing the trim-based shape test with untrimmed length 64 is exactly
64 hex characters.
-/

/-- A leading-segment match puts every needle character in the hay. -/
theorem listStartsWith_mem (n : List Char) : ∀ (h : List Char),
    listStartsWith n h = true → ∀ c ∈ n, c ∈ h := by
  induction n with
  | nil => intro h _ c hc; simp at hc
  | cons a as ih =>
    intro h hn c hc
    rcases h with _ | ⟨b, bs⟩
    · simp [listStartsWith] at hn
    · simp only [listStartsWith, Bool.and_eq_true, beq_iff_eq] at hn
      obtain ⟨hab, hrest⟩ := hn
      rcases List.mem_cons.mp hc with rfl | hc2
      · simp [hab]
      · exact List.mem_cons_of_mem b (ih bs hrest c hc2)

/-- An infix match puts every needle character in the hay. -/
theorem listInfixIn_mem (n : List Char) : ∀ (h : List Char),
    listInfixIn n h = true → ∀ c ∈ n, c ∈ h := by
  intro h
  induction h with
  | nil =>
    intro hn c hc
    rcases n with _ | ⟨a, as⟩
    · simp at hc
    · simp [listInfixIn, listStartsWith] at hn
  | cons b bs ih =>
    intro hn c hc
    rcases Bool.or_eq_true_iff.mp hn with hsw | hin
    · exact listStartsWith_mem n (b :: bs) hsw c hc
    · exact List.mem_cons_of_mem b (ih hin c hc)

/-- An all-hex string contains no keyword holding a non-hex character. -/
theorem strIncludes_hex_false (s kw : String) (c : Char)
    (hhex : s.data.all isHexDigit = true) (hc : c ∈ kw.data)
    (hcnot : isHexDigit c = false) : strIncludes s kw = false := by
  rcases hq : strIncludes s kw with _ | _
  · rfl
  · exfalso
    have hmem : c ∈ s.data := listInfixIn_mem kw.data s.data hq c hc
    have hctrue := List.all_eq_true.mp hhex c hmem
    rw [hcnot] at hctrue
    exact Bool.false_ne_true hctrue

/-- Hex digits are not whitespace. -/
theorem hex_not_ws (c : Char) (h : isHexDigit c = true) : isWsChar c = false := by
  rcases hw : isWsChar c with _ | _
  · rfl
  · exfalso
    simp only [isWsChar, Bool.or_eq_true, beq_iff_eq] at hw
    rcases hw with ((rfl | rfl) | rfl) | rfl <;> exact absurd h (by decide)

/-- dropWhile of whitespace is the identity on all-hex lists. -/
theorem dropWhile_hex (l : List Char) (hl : l.all isHexDigit = true) :
    l.dropWhile isWsChar = l := by
  rcases l with _ | ⟨a, t⟩
  · rfl
  · have ha : isHexDigit a = true := List.all_eq_true.mp hl a (List.mem_cons_self a t)
    rw [List.dropWhile_cons_of_neg]
    simp [hex_not_ws a ha]

/-- Trimming is the identity on all-hex lists. -/
theorem trimChars_hex (l : List Char) (hl : l.all isHexDigit = true) :
    trimChars l = l := by
  rw [trimChars, dropWhile_hex l hl]
  have hrev : l.reverse.all isHexDigit = true := by
    rw [List.all_reverse]
    exact hl
  rw [dropWhile_hex l.reverse hrev, List.reverse_reverse]

/-- Trimming is the identity on all-hex strings. -/
theorem strTrim_hex (s : String) (h : s.data.all isHexDigit = true) :
    strTrim s = s := by
  rw [strTrim, trimChars_hex s.data h]

/-- dropWhile never lengthens a list. -/
theorem length_dropWhile_le_hex (p : Char → Bool) (l : List Char) :
    (l.dropWhile p).length ≤ l.length := by
  induction l with
  | nil => simp
  | cons a t ih =>
    rcases hp : p a with _ | _
    · rw [List.dropWhile_cons_of_neg (by simp [hp])]
    · rw [List.dropWhile_cons_of_pos (by simp [hp])]
      exact le_trans ih (Nat.le_succ _)

/-- A length-preserving dropWhile drops nothing. -/
theorem dropWhile_length_eq (p : Char → Bool) (l : List Char)
    (h : (l.dropWhile p).length = l.length) : l.dropWhile p = l := by
  rcases l with _ | ⟨a, t⟩
  · rfl
  · rcases hp : p a with _ | _
    · rw [List.dropWhile_cons_of_neg (by simp [hp])]
    · exfalso
      rw [List.dropWhile_cons_of_pos (by simp [hp])] at h
      have := length_dropWhile_le_hex p t
      simp only [List.length_cons] at h
      omega

/-- A length-preserving trim trims nothing. -/
theorem trimChars_length_eq (l : List Char)
    (h : (trimChars l).length = l.length) : trimChars l = l := by
  have h1 : ((l.dropWhile isWsChar).reverse.dropWhile isWsChar).length ≤
      (l.dropWhile isWsChar).length := by
    calc ((l.dropWhile isWsChar).reverse.dropWhile isWsChar).length
        ≤ (l.dropWhile isWsChar).reverse.length :=
          length_dropWhile_le_hex isWsChar (l.dropWhile isWsChar).reverse
      _ = (l.dropWhile isWsChar).length := List.length_reverse _
  have h2 : (l.dropWhile isWsChar).length ≤ l.length := length_dropWhile_le_hex isWsChar l
  have htrim : (trimChars l).length =
      ((l.dropWhile isWsChar).reverse.dropWhile isWsChar).length := by
    rw [trimChars, List.length_reverse]
  have hlen1 : (l.dropWhile isWsChar).length = l.length := by omega
  have hd1 : l.dropWhile isWsChar = l := dropWhile_length_eq isWsChar l hlen1
  have hlen2 : (l.reverse.dropWhile isWsChar).length = l.reverse.length := by
    rw [List.length_reverse]
    rw [hd1] at htrim h1
    omega
  have hd2 : l.reverse.dropWhile isWsChar = l.reverse :=
    dropWhile_length_eq isWsChar l.reverse hlen2
  rw [trimChars, hd1, hd2, List.reverse_reverse]

/-- The main disambiguation fact: the mint string is interpreted as
success (no error keyword, untrimmed length 64, trim-based hash test)
exactly when it is a plain 64-hex-character hash. -/
theorem mintIsError_iff_not_hex (s : String) :
    mintIsError s = false ↔ exactly64Hex s = true := by
  constructor
  · intro h
    simp only [mintIsError, Bool.or_eq_false_iff, Bool.not_eq_false'] at h
    obtain ⟨⟨⟨⟨⟨⟨_, _⟩, _⟩, _⟩, _⟩, hlen⟩, hvalid⟩ := h
    simp only [isValidHash64, Bool.and_eq_true] at hvalid
    obtain ⟨htl, hthex⟩ := hvalid
    have hlen' : strLen s = 64 := by simpa using hlen
    have htlen : (trimChars s.data).length = s.data.length := by
      have hx : strLen (strTrim s) = 64 := by simpa using htl
      simp only [strLen, strTrim] at hx
      simp only [strLen] at hlen'
      omega
    have heq : trimChars s.data = s.data := trimChars_length_eq s.data htlen
    have hdata : (strTrim s).data = s.data := by
      simp only [strTrim, heq]
    have hshex : s.data.all isHexDigit = true := by
      rw [← hdata]
      exact hthex
    simp [exactly64Hex, hlen, hshex]
  · intro h
    simp only [exactly64Hex, Bool.and_eq_true] at h
    obtain ⟨hlen, hhex⟩ := h
    have htrim : strTrim s = s := strTrim_hex s hhex
    have e1 : strIncludes s "error" = false :=
      strIncludes_hex_false s "error" 'r' hhex (by decide) (by decide)
    have e2 : strIncludes s "used" = false :=
      strIncludes_hex_false s "used" 'u' hhex (by decide) (by decide)
    have e3 : strIncludes s "already" = false :=
      strIncludes_hex_false s "already" 'l' hhex (by decide) (by decide)
    have e4 : strIncludes s "not found" = false :=
      strIncludes_hex_false s "not found" 'n' hhex (by decide) (by decide)
    have e5 : strIncludes s "not identified" = false :=
      strIncludes_hex_false s "not identified" 'n' hhex (by decide) (by decide)
    have e6 : strIncludes s "Updater" = false :=
      strIncludes_hex_false s "Updater" 'U' hhex (by decide) (by decide)
    have hv : isValidHash64 s = true := by
      simp [isValidHash64, htrim, hlen, hhex]
    simp [mintIsError, e1, e2, e3, e4, e5, e6, hlen, hv]

/-- A 64-hex string is not empty. -/
theorem exactly64Hex_ne_empty (s : String) (h : exactly64Hex s = true) :
    (s == "") = false := by
  rcases hq : s == "" with _ | _
  · rfl
  · exfalso
    have hs : s = "" := by simpa using hq
    subst hs
    exact absurd h (by decide)

/-- A thrown mint call produces a result containing the `error` keyword. -/
theorem mintResult_thrown_err (pc : RegOracle) (m : String)
    (h : pc.createEntity = .thrown m) :
    strIncludes (mintResult pc) "error" = true := by
  simp only [mintResult, h]
  rfl

/-- A mint failure result is never a success payload. -/
theorem mintFailureResult_not_success (db : DB) (s : String) :
    (mintFailureResult db s).res.isSuccessShape = false := by
  rw [mintFailureResult]
  split <;> rfl

/-- With no injected failure the available-branch transaction result is a
success payload. -/
theorem runTx_noFail_success (db : DB) (now : Nat)
    (normalized username password : String) (ancestorId : Nat) (entityTag : String) :
    (runTx db DbFailure.noFail now normalized username password
      ancestorId entityTag).res.isSuccessShape = true := by
  simp only [runTx, DbFailure.noFail, Bool.false_eq_true, if_false, ite_false]
  rfl

/-- Oracle whose mint call returns the PathChain error text
`Updater not identified`. -/
def wOracleMintErr : RegOracle :=
  { wOracle with createEntity := .ok "Updater not identified" }

/-- Counterexample for C3 as stated: a mint failure whose text does not
indicate prior use is mapped to INVALID_SECRET (40100), which is neither
USED_SECRET nor the mint-failure code ENTITY_RETRIEVAL_FAILED. -/
theorem mint_error_mapping_counterexample :
    (register wDb wOracleMintErr wInit DbFailure.noFail 7 "s1" "erin" "pw").code =
      some ErrorCodes.INVALID_SECRET ∧
    (ErrorCodes.INVALID_SECRET == ErrorCodes.USED_SECRET) = false ∧
    (ErrorCodes.INVALID_SECRET == ErrorCodes.ENTITY_RETRIEVAL_FAILED) = false := by
  decide

/-- C3 (amended): in register's normal branch the mint result string is
interpreted as success exactly when it is a 64-hex-character hash; a
failure whose text indicates prior use is mapped to USED_SECRET only when a
confirming usage recheck returns true (a thrown recheck gives
DATABASE_ERROR); other failures map to INVALID_SECRET when the text
indicates a missing/unidentified secret and to ENTITY_RETRIEVAL_FAILED
(the code's mint-failure code) otherwise. -/
theorem mint_result_interpretation
    (db : DB) (pc : RegOracle) (io : InitOracle) (now : Nat)
    (secretInput username password : String) (so : SecretObj) (anc : EntityRow)
    (eo : EntityObj)
    (hU1 : (username == "") = false) (hU2 : Nat.blt 255 (strLen username) = false)
    (hP : (password == "") = false) (hEx : Login.usernameExists db username = false)
    (hS : (secretInput == "") = false)
    (hN : (normalizeSecretHash secretInput == "") = false)
    (hAv : pc.available = true) (hIs : effectiveIsUsed pc = .bool false)
    (hRS : resolvedSecret pc = .obj so)
    (hAnc : Entity.findByPath db so.author = some anc)
    (hRE : resolvedEntity pc = .obj eo) :
    ((register db pc io DbFailure.noFail now secretInput username
        password).res.isSuccessShape = exactly64Hex (mintResult pc)) ∧
    (mintIsError (mintResult pc) = true → (mintResult pc == "") = false →
      kwPriorUse (mintResult pc) = true → pc.isUsedRecheck = .ok (.bool true) →
      (register db pc io DbFailure.noFail now secretInput username password).code =
        some ErrorCodes.USED_SECRET) ∧
    (mintIsError (mintResult pc) = true → (mintResult pc == "") = false →
      kwPriorUse (mintResult pc) = false → kwNotFound (mintResult pc) = true →
      (register db pc io DbFailure.noFail now secretInput username password).code =
        some ErrorCodes.INVALID_SECRET) ∧
    (mintIsError (mintResult pc) = true → (mintResult pc == "") = false →
      kwPriorUse (mintResult pc) = false → kwNotFound (mintResult pc) = false →
      (register db pc io DbFailure.noFail now secretInput username password).code =
        some ErrorCodes.ENTITY_RETRIEVAL_FAILED) ∧
    (∀ m, mintIsError (mintResult pc) = true → (mintResult pc == "") = false →
      kwPriorUse (mintResult pc) = true → pc.isUsedRecheck = .thrown m →
      (register db pc io DbFailure.noFail now secretInput username password).code =
        some ErrorCodes.DATABASE_ERROR) := by
  refine ⟨?_, ?_, ?_, ?_, ?_⟩
  · rcases h64 : exactly64Hex (mintResult pc) with _ | _
    · simp only [register, hU1, hU2, hP, hEx, hS, hN, hAv, hIs, hRS, hAnc, Bool.or_self,
        Bool.false_eq_true, if_false, ite_false, if_true, ite_true]
      rcases hne : mintResult pc == "" with _ | _
      · have hmiEr : mintIsError (mintResult pc) = true := by
          rcases hmi : mintIsError (mintResult pc) with _ | _
          · exact absurd ((mintIsError_iff_not_hex (mintResult pc)).mp hmi)
              (by rw [h64]; exact Bool.false_ne_true)
          · rfl
        simp only [hne, hmiEr, Bool.false_eq_true, if_false, ite_false, if_true, ite_true]
        split
        · split
          · rfl
          · rfl
          · exact mintFailureResult_not_success db (mintResult pc)
          · exact mintFailureResult_not_success db (mintResult pc)
        · exact mintFailureResult_not_success db (mintResult pc)
      · simp only [hne, if_true, ite_true]
        rfl
    · have hME64 : mintIsError (mintResult pc) = false :=
        (mintIsError_iff_not_hex (mintResult pc)).mpr h64
      have hNE64 : (mintResult pc == "") = false := exactly64Hex_ne_empty _ h64
      rcases hCEc : pc.createEntity with eh | m
      · have hmr : mintResult pc = eh := by simp [mintResult, hCEc]
        rw [hmr] at hME64 hNE64
        rw [register_reaches_tx db pc io DbFailure.noFail now secretInput username
          password so anc eh eo hU1 hU2 hP hEx hS hN hAv hIs hRS hAnc hCEc hNE64
          hME64 hRE]
        exact runTx_noFail_success db now (normalizeSecretHash secretInput)
          username password anc.id eo.tag
      · exfalso
        have hInc : strIncludes (mintResult pc) "error" = true :=
          mintResult_thrown_err pc m hCEc
        rw [mintIsError, hInc] at hME64
        simp at hME64
  · intro hErr hNEm hPU hRT
    simp only [register, hU1, hU2, hP, hEx, hS, hN, hAv, hIs, hRS, hAnc, hNEm, hErr,
      hPU, hRT, Bool.or_self, Bool.false_eq_true, if_false, ite_false, if_true, ite_true]
    rfl
  · intro hErr hNEm hPU hNF
    simp only [register, mintFailureResult, hU1, hU2, hP, hEx, hS, hN, hAv, hIs, hRS,
      hAnc, hNEm, hErr, hPU, hNF, Bool.or_self, Bool.false_eq_true, if_false, ite_false,
      if_true, ite_true]
    rfl
  · intro hErr hNEm hPU hNF
    simp only [register, mintFailureResult, hU1, hU2, hP, hEx, hS, hN, hAv, hIs, hRS,
      hAnc, hNEm, hErr, hPU, hNF, Bool.or_self, Bool.false_eq_true, if_false, ite_false,
      if_true, ite_true]
    rfl
  · intro m hErr hNEm hPU hRT
    simp only [register, hU1, hU2, hP, hEx, hS, hN, hAv, hIs, hRS, hAnc, hNEm, hErr,
      hPU, hRT, Bool.or_self, Bool.false_eq_true, if_false, ite_false, if_true, ite_true]
    rfl

/-- Witness for C3 (amended): a concrete 64-hex mint result yields success,
and the concrete failure text `Updater not identified` maps to
INVALID_SECRET. -/
theorem mint_result_interpretation_witness :
    (register wDb wOracle wInit DbFailure.noFail 7 "s1" "frank"
      "pw").res.isSuccessShape = exactly64Hex (mintResult wOracle) ∧
    (register wDb wOracleMintErr wInit DbFailure.noFail 7 "s1" "frank" "pw").code =
      some ErrorCodes.INVALID_SECRET := by
  have h1 := mint_result_interpretation wDb wOracle wInit 7 "s1" "frank" "pw"
    wSecretObj ⟨1, "entities/aaa", none⟩ wEntityObj
    (by decide) (by decide) (by decide) (by decide) (by decide) (by decide)
    (by decide) (by decide) (by decide) (by decide) (by decide)
  have h2 := mint_result_interpretation wDb wOracleMintErr wInit 7 "s1" "frank" "pw"
    wSecretObj ⟨1, "entities/aaa", none⟩ wEntityObj
    (by decide) (by decide) (by decide) (by decide) (by decide) (by decide)
    (by decide) (by decide) (by decide) (by decide) (by decide)
  exact ⟨h1.1, h2.2.2.1 (by decide) (by decide) (by decide) (by decide)⟩

/-!
§ C7 — ancestor resolution
-/

/-- A store where entity 2's cached ancestor link is missing. -/
def wAncDb : DB :=
  { entities := [⟨1, "entities/aaa", none⟩, ⟨2, "entities/bbb", none⟩],
    secrets := [], logins := [], nextEntityId := 3, nextSecretId := 1 }

/-- PathChain results for resolving entity 2's record (its Ledger ancestor
pointer names entity 1); the display lookups throw. -/
def wAncOracle : AncOracle :=
  { getCurA := .ok (.obj ⟨"moments/m", "entities/aaa", "entities/bbb"⟩),
    getCurB := .thrown "io", getCurC := .thrown "io",
    getAncA := .thrown "io", getAncB := .thrown "io", getAncC := .thrown "io" }

/-- Counterexample for C7 as stated: the Ledger fallback resolves entity
2's ancestor to row 1, yet the returned store is the input store — row 2's
cached ancestor link is still null, so no repair of the cached link
happens. -/
theorem ancestor_no_repair_counterexample :
    getAncestorInfo wAncDb wAncOracle 2 =
      (.success ⟨1, "entities/aaa", none⟩ none none, wAncDb) ∧
    Entity.findByPk wAncDb 2 = some ⟨2, "entities/bbb", none⟩ := by
  decide

/-- C7 (amended): the resolver never writes to the Projection Store; it
uses the stored ancestor link when set and resolvable (fast path), falls
back to the Ledger record's ancestor pointer when the link is absent, and
returns ANCESTOR_NOT_FOUND exactly when both the stored link and the
Ledger-derived fallback fail to resolve to an existing row; the store row
is NOT repaired. -/
theorem ancestor_resolution_dual_path :
    (∀ (db : DB) (o : AncOracle) (i : Nat), (getAncestorInfo db o i).2 = db) ∧
    (∀ (db : DB) (o : AncOracle) (i : Nat) (e a : EntityRow) (aid : Nat),
      (i == 0) = false → Entity.findByPk db i = some e →
      e.ancestor_id = some aid → (aid == 0) = false →
      Entity.findByPk db aid = some a → (a.id == 0) = false →
      Entity.findByPk db a.id = some a →
      (getAncestorInfo db o i).1 =
        .success a (ancObjOf o) (db.logins.find? (fun r => r.entity_id == a.id))) ∧
    (∀ (db : DB) (o : AncOracle) (i : Nat) (e a : EntityRow),
      (i == 0) = false → Entity.findByPk db i = some e →
      e.ancestor_id = none →
      ancFallback db (resolveChainNoInner o.getCurA o.getCurB o.getCurC) = some a →
      (a.id == 0) = false → Entity.findByPk db a.id = some a →
      (getAncestorInfo db o i).1 =
        .success a (ancObjOf o) (db.logins.find? (fun r => r.entity_id == a.id))) ∧
    (∀ (db : DB) (o : AncOracle) (i : Nat) (e : EntityRow),
      (i == 0) = false → Entity.findByPk db i = some e →
      ancResolved db o e = none →
      (getAncestorInfo db o i).1 =
        .failure ErrorCodes.ANCESTOR_NOT_FOUND "Ancestor entity not found") := by
  refine ⟨?_, ?_, ?_, ?_⟩
  · intro db o i
    rw [getAncestorInfo]
    repeat' split
    all_goals rfl
  · intro db o i e a aid hi hFind hAncId hAid0 hFindA hA0 hFindAId
    have hRes : ancResolved db o e = some a := by
      simp [ancResolved, ancFromDb, hAncId, hAid0, hFindA]
    simp [getAncestorInfo, hi, hFind, hRes, fetchEntityInfo, hA0, hFindAId]
  · intro db o i e a hi hFind hAncId hFb hA0 hFindAId
    have hRes : ancResolved db o e = some a := by
      simp [ancResolved, ancFromDb, hAncId, hFb]
    simp [getAncestorInfo, hi, hFind, hRes, fetchEntityInfo, hA0, hFindAId]
  · intro db o i e hi hFind hRes
    simp [getAncestorInfo, hi, hFind, hRes]

/-- Witness for C7 (amended): a fast-path resolution on a concrete store
with the cached link set, returning the linked row. -/
theorem ancestor_resolution_dual_path_witness :
    (getAncestorInfo
      { entities := [⟨1, "entities/aaa", none⟩, ⟨2, "entities/bbb", some 1⟩],
        secrets := [], logins := [], nextEntityId := 3, nextSecretId := 1 }
      wAncOracle 2).1 =
      .success ⟨1, "entities/aaa", none⟩ (ancObjOf wAncOracle)
        (List.find? (fun r => r.entity_id == 1) []) :=
  ancestor_resolution_dual_path.2.1
    { entities := [⟨1, "entities/aaa", none⟩, ⟨2, "entities/bbb", some 1⟩],
      secrets := [], logins := [], nextEntityId := 3, nextSecretId := 1 }
    wAncOracle 2 ⟨2, "entities/bbb", some 1⟩ ⟨1, "entities/aaa", none⟩ 1
    (by decide) (by decide) (by decide) (by decide) (by decide) (by decide) (by decide)
